import Mathlib

/-!
Verification of the ketos value-decode engine (`src/ketos/value_decode.rs`).

The Rust module implements a serde `Deserializer` over a ketos `Value`
tree.  We shallowly embed the deserializer state machine: the cursor
stack (`VDeserializer.state`), the traversal primitives (`next_value`,
`peek_value`, `read_name`, `enter_seq`, `leave_seq`, `begin_struct`,
`enter_struct`, `enter_tuple_struct`, `enter_fields`), the
`Deserializer` methods the claims exercise, and the serde-derive
visitors for the concrete target types the spec scenarios use
(`Point(i32,i32)`, `Shape = Circle(f64) | Square {side: f64}`,
`Color = Red | Green | Blue`, and a positional variant `Pair::P(i32,i32)`).

Rust `Result<T, ExecError>` is modelled by the `ok`/`err` constructors of
`DecodeResult`; a Rust process panic (the `panic!` macro / `unimplemented!`,
as opposed to the `panic(..)` helper that builds an `ExecError`) is the
`fatal` constructor.  State is threaded explicitly: a `DM α` is a function
from the deserializer state to a result carrying the updated state.
The head of the `state` list models the top of the Rust `Vec` stack.
-/

namespace Ketos

/-- The ketos value tree (external to the decode module; spec section 3):
unit, booleans, characters, integers, 64-bit floats (modelled exactly by
rationals, since the decoder only moves them around), strings, keyword
and name symbols (interned ids), and lists. -/
inductive Value : Type where
  | Unit : Value
  | Bool (b : Bool) : Value
  | Char (c : Char) : Value
  | Integer (i : Int) : Value
  | Float (f : Rat) : Value
  | String (s : String) : Value
  | Keyword (n : Nat) : Value
  | Name (n : Nat) : Value
  | List (xs : List Value) : Value

/-- Errors returned as `Err(ExecError)` by the decode module.
`panicErr` models `exec::panic(msg)` (which builds an `ExecError`) and
serde `de::Error::custom` (which the module routes to `panic(msg)`);
`expected` models `ExecError::expected(what, value)`;
`oddKeywordParams` models `ExecError::OddKeywordParams`. -/
inductive ExecError : Type where
  | panicErr (msg : String) : ExecError
  | expected (what : String) (found : Value) : ExecError
  | oddKeywordParams : ExecError

/-- Modelled from the spec: the external symbol table ("scope") maps an
interned symbol id to its textual form. -/
def Scope : Type := Nat → String

/-- Modelled from the spec: the symbol table's scoped lookup
`with_name(id, f)` resolves the id and passes the text to `f`. -/
def with_name {β : Type} (scope : Scope) (n : Nat) (f : String → β) : β :=
  f (scope n)

/-- One frame of the cursor stack (Rust `enum DeserializeState`):
a single pending value, or an iteration cursor over a list, modelled by
the list of elements not yet yielded. -/
inductive DeserializeState : Type where
  | Value (v : Value) : DeserializeState
  | Seq (rest : List Value) : DeserializeState

/-- The deserializer (Rust `struct VDeserializer`): the scope and the
cursor stack.  The head of `state` is the top of the stack. -/
structure VDeserializer : Type where
  scope : Scope
  state : List DeserializeState

/-- Outcome of a stateful decode step: `Ok` with updated state, `Err`
with updated state (Rust `Result::Err`), or a Rust process panic. -/
inductive DecodeResult (α : Type) : Type where
  | ok (a : α) (s : VDeserializer) : DecodeResult α
  | err (e : ExecError) (s : VDeserializer) : DecodeResult α
  | fatal (msg : String) : DecodeResult α

/-- A stateful decode computation. -/
def DM (α : Type) : Type := VDeserializer → DecodeResult α

/-- Sequencing of decode steps: the Rust `?` operator (errors and panics
propagate, state threads through). -/
def bindD {α β : Type} (m : DM α) (f : α → DM β) : DM β := fun s =>
  match m s with
  | .ok a s' => f a s'
  | .err e s' => .err e s'
  | .fatal msg => .fatal msg

/-- `Ok` with unchanged state. -/
def pureD {α : Type} (a : α) : DM α := fun s => .ok a s

/-- `Err` at the current state. -/
def errD {α : Type} (e : ExecError) : DM α := fun s => .err e s

/-- Lift a pure `Result` into a decode step (state unchanged). -/
def ofExcept {α : Type} : Except ExecError α → DM α
  | .ok a => pureD a
  | .error e => errD e

/-- Map over the result of a decode step. -/
def mapD {α β : Type} (f : α → β) (m : DM α) : DM β :=
  bindD m (fun a => pureD (f a))

/-- Is the outcome a returned `Ok`? -/
def DecodeResult.isOk {α : Type} : DecodeResult α → Bool
  | .ok _ _ => true
  | _ => false

/-- Is the outcome a returned `Err`? -/
def DecodeResult.isErr {α : Type} : DecodeResult α → Bool
  | .err _ _ => true
  | _ => false

/-- The decoded value, when the outcome is `Ok`. -/
def DecodeResult.okValue {α : Type} : DecodeResult α → Option α
  | .ok a _ => some a
  | _ => none

/-- The error, when the outcome is `Err`. -/
def DecodeResult.errValue {α : Type} : DecodeResult α → Option ExecError
  | .err e _ => some e
  | _ => none

/-- The cursor stack left behind, when the computation did not panic. -/
def DecodeResult.finalStack {α : Type} : DecodeResult α → Option (List DeserializeState)
  | .ok _ s => some s.state
  | .err _ s => some s.state
  | .fatal _ => none

/-- Rust `VDeserializer::next_value`: pop the top frame; a `Value` frame
yields its value, a `Seq` frame yields its next element and is pushed
back — unless it is exhausted, in which case the frame stays popped and
an end-of-sequence error is returned.  An empty stack is a fatal
internal error (`panic!`). -/
def next_value : DM Value := fun s =>
  match s.state with
  | [] => .fatal "missing value state"
  | .Value v :: rest => .ok v ⟨s.scope, rest⟩
  | .Seq l :: rest =>
    match l with
    | v :: xs => .ok v ⟨s.scope, .Seq xs :: rest⟩
    | [] => .err (.panicErr "unexpected end of sequence") ⟨s.scope, rest⟩

/-- Rust `VDeserializer::peek_value`: like `next_value` but the stack is
left untouched. -/
def peek_value : DM Value := fun s =>
  match s.state with
  | [] => .fatal "missing value state"
  | .Value v :: _ => .ok v s
  | .Seq l :: _ =>
    match l with
    | v :: _ => .ok v s
    | [] => .err (.panicErr "unexpected end of sequence") s

/-- Rust `VDeserializer::read_name`: read one value, require the `Name`
tag, return the interned id. -/
def read_name : DM Nat :=
  bindD next_value (fun v =>
    match v with
    | .Name n => pureD n
    | v => errD (.expected "name" v))

/-- Modelled from the spec: the external `FromValueRef` conversion for
`&[Value]` used by `enter_seq`; section 4.1 requires the value to be a
list. -/
def listFromValueRef : Value → Except ExecError (List Value)
  | .List xs => .ok xs
  | v => .error (.expected "list" v)

/-- Rust `VDeserializer::enter_seq`: read the current value, require a
list, push an iteration frame over its elements and return the element
count. -/
def enter_seq : DM Nat :=
  bindD next_value (fun v =>
    match listFromValueRef v with
    | .error e => errD e
    | .ok xs => fun s => .ok xs.length ⟨s.scope, .Seq xs :: s.state⟩)

/-- Rust `VDeserializer::leave_seq`: pop the top frame, which must be an
exhausted iteration frame; remaining elements are an `extraneous
elements` error, a `Value` frame or empty stack is fatal. -/
def leave_seq : DM Unit := fun s =>
  match s.state with
  | [] => .fatal "missing value state"
  | .Value _ :: _ => .fatal "not a sequence"
  | .Seq l :: rest =>
    match l with
    | _ :: _ => .err (.panicErr "extraneous elements in sequence") ⟨s.scope, rest⟩
    | [] => .ok () ⟨s.scope, rest⟩

/-- Rust `VDeserializer::begin_struct`: enter the record's list, read
the leading name token and validate it against the target's registered
name via the scoped lookup. -/
def begin_struct (name : String) : DM Unit :=
  bindD enter_seq (fun _ =>
    bindD read_name (fun nv => fun s =>
      with_name s.scope nv (fun n =>
        if n ≠ name then
          .err (.panicErr ("expected struct `" ++ name ++ "`; found `" ++ n ++ "`")) s
        else
          .ok () s)))

/-- Rust `VDeserializer::enter_fields`: enter the flattened field list;
an odd element count fails with `OddKeywordParams`, otherwise half the
element count is returned. -/
def enter_fields : DM Nat :=
  bindD enter_seq (fun n =>
    if n % 2 = 1 then errD .oddKeywordParams else pureD (n / 2))

/-- Rust `VDeserializer::enter_struct`: name check, then enter the
nested field list. -/
def enter_struct (name : String) : DM Nat :=
  bindD (begin_struct name) (fun _ => enter_fields)

/-- Rust `VDeserializer::enter_tuple_struct`: name check, then enter a
nested sequence holding the positional fields. -/
def enter_tuple_struct (name : String) : DM Nat :=
  bindD (begin_struct name) (fun _ => enter_seq)

/-- Rust `decode_value`: run the target's deserialize with a single
`Value` frame, then `finish`, which `panic!`s unless the cursor stack is
empty. -/
def decode_value {α : Type} (d : DM α) (scope : Scope) (v : Value) : DecodeResult α :=
  match d ⟨scope, [.Value v]⟩ with
  | .ok a s =>
    match s.state with
    | [] => .ok a s
    | _ :: _ => .fatal "decode state is not empty"
  | r => r

/-- Rust `Deserializer::deserialize_any` is `unimplemented!()`: a Rust
panic (fatal), regardless of state or target. -/
def deserialize_any {α : Type} : DM α := fun _ => .fatal "not implemented"

/-- Modelled from the spec: the external `FromValueRef` conversion for
`i32` (section 4.2: direct integer tag match, narrowing only when the
stored value fits the width). -/
def i32FromValueRef : Value → Except ExecError Int
  | .Integer i =>
    if -2147483648 ≤ i ∧ i < 2147483648 then .ok i
    else .error (.panicErr "integer overflow")
  | v => .error (.expected "integer" v)

/-- Modelled from the spec: the external `FromValueRef` conversion for
`f64` (section 4.2: direct float tag match). -/
def f64FromValueRef : Value → Except ExecError Rat
  | .Float f => .ok f
  | v => .error (.expected "float" v)

/-- Modelled from the spec: the external `FromValueRef` conversion for
borrowed strings used by `deserialize_str`.  It receives only the value
and no symbol table (the call site applies it to `next_value`'s result
alone), so only the string tag can produce text. -/
def strFromValueRef : Value → Except ExecError String
  | .String s => .ok s
  | v => .error (.expected "string" v)

/-- Rust `deserialize_i32` composed with serde's identity visitor for
`i32` (which returns the visited value unchanged). -/
def deserialize_i32 : DM Int :=
  bindD next_value (fun v => ofExcept (i32FromValueRef v))

/-- Rust `deserialize_f64` composed with serde's identity visitor for
`f64`. -/
def deserialize_f64 : DM Rat :=
  bindD next_value (fun v => ofExcept (f64FromValueRef v))

/-- Rust `deserialize_str` composed with serde's identity visitor: the
value is passed through the scope-free borrowed-string conversion. -/
def deserialize_str : DM String :=
  bindD next_value (fun v => ofExcept (strFromValueRef v))

/-- Rust `deserialize_string` composed with serde's identity visitor:
a string value is returned as-is, a keyword symbol is resolved to text
via the symbol table, anything else is a type mismatch. -/
def deserialize_string : DM String :=
  bindD next_value (fun v =>
    match v with
    | .String str => pureD str
    | .Keyword n => fun s => with_name s.scope n (fun text => .ok text s)
    | v => errD (.expected "keyword or string" v))

/-- Rust `deserialize_option`: peek the current value; the unit tag is
consumed (its read result discarded by `let _ = ...`) and `none` is
visited; any other tag dispatches `visit_some(self)`, decoding the same
value as the wrapped type. -/
def deserialize_option {α : Type} (d : DM α) : DM (Option α) := fun s =>
  match peek_value s with
  | .fatal msg => .fatal msg
  | .err e s' => .err e s'
  | .ok v s' =>
    match v with
    | .Unit =>
      match next_value s' with
      | .fatal msg => .fatal msg
      | .ok _ s2 => .ok none s2
      | .err _ s2 => .ok none s2
    | _ => mapD Option.some d s'

/-- Rust `deserialize_identifier`: read one value, require a keyword or
name symbol, resolve it and hand the text to the visitor's `visit_str`
(the derive's field/variant matcher, passed as `visitStr`). -/
def deserialize_identifier {φ : Type} (visitStr : String → Except ExecError φ) : DM φ :=
  bindD next_value (fun v =>
    match v with
    | .Keyword n => fun s => with_name s.scope n (fun text => ofExcept (visitStr text) s)
    | .Name n => fun s => with_name s.scope n (fun text => ofExcept (visitStr text) s)
    | v => errD (.expected "keyword" v))

/-- Rust `deserialize_ignored_any`: read and discard exactly one value. -/
def deserialize_ignored_any : DM Unit :=
  bindD next_value (fun _ => pureD ())

/-- Rust `deserialize_tuple_struct`: enter the tuple struct (name check
plus the nested positional list), drive the visitor's `visit_seq` with
the element count, then close the inner and the outer list. -/
def deserialize_tuple_struct {α : Type} (name : String) (visitSeq : Nat → DM α) : DM α :=
  bindD (enter_tuple_struct name) (fun n =>
    bindD (visitSeq n) (fun v =>
      bindD leave_seq (fun _ =>
        bindD leave_seq (fun _ => pureD v))))

/-- Rust `deserialize_struct`: enter the struct (name check plus the
nested flattened field list), drive the visitor's `visit_map` with the
field count, then close the inner and the outer list.  The declared
field list is ignored, exactly as the Rust `_fields` parameter is. -/
def deserialize_struct {α : Type} (name : String) (fields : List String)
    (visitMap : Nat → DM α) : DM α :=
  bindD (enter_struct name) (fun n =>
    bindD (visitMap n) (fun v =>
      bindD leave_seq (fun _ =>
        bindD leave_seq (fun _ => pureD v))))

/-- Rust `Variant::variant_seed` (the `EnumAccess` used when the peeked
value is a list): enter the variant's list, read the leading name
symbol, resolve it and run the derive's variant matcher on the text. -/
def variant_seed_list {φ : Type} (ofStr : String → Except ExecError φ) : DM φ :=
  bindD enter_seq (fun _ =>
    bindD read_name (fun n => fun s =>
      with_name s.scope n (fun text => ofExcept (ofStr text) s)))

/-- Rust `UnitVariant::variant_seed` (the `EnumAccess` used when the
peeked value is not a list): read the bare name symbol directly and run
the derive's variant matcher on the resolved text; no frame is opened. -/
def variant_seed_unit {φ : Type} (ofStr : String → Except ExecError φ) : DM φ :=
  bindD read_name (fun n => fun s =>
    with_name s.scope n (fun text => ofExcept (ofStr text) s))

/-- Rust `deserialize_enum`: peek the current value and dispatch on its
tag — a list uses the `Variant` access, anything else the `UnitVariant`
access; the registered enum name and the declared variant list are
ignored, exactly as the Rust `_name`/`_variants` parameters are. -/
def deserialize_enum {φ α : Type} (name : String) (variants : List String)
    (ofStr : String → Except ExecError φ) (visitEnum : DM φ → DM α) : DM α :=
  bindD peek_value (fun v =>
    match v with
    | .List _ => visitEnum (variant_seed_list ofStr)
    | _ => visitEnum (variant_seed_unit ofStr))

/-- Rust `VariantAccess::unit_variant`: nothing is read or closed. -/
def unit_variant : DM Unit := pureD ()

/-- Rust `VariantAccess::newtype_variant_seed`: decode the single
payload element, then close the outer variant list. -/
def newtype_variant {α : Type} (d : DM α) : DM α :=
  bindD d (fun v => bindD leave_seq (fun _ => pureD v))

/-- Rust `VariantAccess::tuple_variant`: drive `visit_seq` with the
declared arity, then close the outer variant list. -/
def tuple_variant {α : Type} (n : Nat) (visitSeq : Nat → DM α) : DM α :=
  bindD (visitSeq n) (fun v => bindD leave_seq (fun _ => pureD v))

/-- Rust `VariantAccess::struct_variant`: enter the nested field list,
drive `visit_map`, then close that inner list.  Note: only one
`leave_seq` — the outer variant list opened by `variant_seed_list` is
not closed on this path. -/
def struct_variant {α : Type} (visitMap : Nat → DM α) : DM α :=
  bindD enter_fields (fun n =>
    bindD (visitMap n) (fun v =>
      bindD leave_seq (fun _ => pureD v)))

/-- serde's `SeqAccess::next_element` on the module's `SeqVisitor`:
`None` once the counter reaches zero, otherwise decrement and decode one
element from the deserializer. -/
def next_element {α : Type} (n : Nat) (d : DM α) : DM (Option α × Nat) :=
  if n = 0 then pureD (none, 0)
  else bindD d (fun v => pureD (some v, n - 1))

/-! ## Concrete target types (serde-derive expansions)

The `Deserialize` implementations for the spec's scenario types are the
standard serde-derive expansions, modelled from serde's documented
behavior (serde is an external crate): a tuple struct visits a sequence
and errors `invalid_length` when `next_element` returns `None`; a struct
visits a map, matching field identifiers and ignoring unknown ones; an
enum matches the variant identifier string and errors `unknown variant`
otherwise, then drives the payload access matching the variant's shape.
All custom serde errors reach this module's `de::Error::custom`, which
builds `panic(msg)`, i.e. `panicErr`. -/

/-- Derive visitor `visit_seq` for `struct Point(i32, i32)`. -/
def pointVisitSeq (n : Nat) : DM (Int × Int) :=
  bindD (next_element n deserialize_i32) (fun p0 =>
    match p0.1 with
    | none => errD (.panicErr "invalid length 0, expected tuple struct Point with 2 elements")
    | some a =>
      bindD (next_element p0.2 deserialize_i32) (fun p1 =>
        match p1.1 with
        | none => errD (.panicErr "invalid length 1, expected tuple struct Point with 2 elements")
        | some b => pureD (a, b)))

/-- `<Point as Deserialize>::deserialize`: a tuple struct registered as
`"Point"` with two `i32` fields. -/
def pointDeserialize : DM (Int × Int) :=
  deserialize_tuple_struct "Point" pointVisitSeq

/-- Top-level decode of a `Point` from a value. -/
def decodePoint (scope : Scope) (v : Value) : DecodeResult (Int × Int) :=
  decode_value pointDeserialize scope v

/-- The target union `Shape = Circle(f64) | Square {side: f64}`. -/
inductive Shape : Type where
  | Circle (r : Rat) : Shape
  | Square (side : Rat) : Shape

/-- The derive's variant-identifier type for `Shape`. -/
inductive ShapeField : Type where
  | circle : ShapeField
  | square : ShapeField

/-- Derive variant matcher for `Shape`: unknown names fail with serde's
`unknown_variant` error, routed through `custom` to `panic(msg)`. -/
def shapeFieldOfStr (s : String) : Except ExecError ShapeField :=
  if s = "Circle" then .ok .circle
  else if s = "Square" then .ok .square
  else .error (.panicErr ("unknown variant `" ++ s ++ "`, expected `Circle` or `Square`"))

/-- The derive's field-identifier type for `Square {side}`: the known
field or the default ignore case. -/
inductive SquareField : Type where
  | side : SquareField
  | ignore : SquareField

/-- Derive field matcher for `Square`: unknown fields are ignored (serde
default, no `deny_unknown_fields`). -/
def squareFieldOfStr (s : String) : Except ExecError SquareField :=
  .ok (if s = "side" then .side else .ignore)

/-- Derive visitor `visit_map` for `Square {side: f64}`: loop over the
map access (fuel is the remaining entry count the access reports), match
each field identifier, decode `side` at most once, skip ignored fields,
and require `side` present at the end. -/
def squareVisitMap : Nat → Option Rat → DM Rat
  | 0, acc =>
    match acc with
    | some v => pureD v
    | none => errD (.panicErr "missing field `side`")
  | n + 1, acc =>
    bindD (deserialize_identifier squareFieldOfStr) (fun f =>
      match f with
      | .side =>
        match acc with
        | some _ => errD (.panicErr "duplicate field `side`")
        | none => bindD deserialize_f64 (fun v => squareVisitMap n (some v))
      | .ignore => bindD deserialize_ignored_any (fun _ => squareVisitMap n acc))

/-- Derive visitor `visit_enum` for `Shape`: read the variant identifier
through the given access, then drive the payload — newtype access for
`Circle`, struct-variant access for `Square`. -/
def shapeVisitEnum (vseed : DM ShapeField) : DM Shape :=
  bindD vseed (fun f =>
    match f with
    | .circle => mapD Shape.Circle (newtype_variant deserialize_f64)
    | .square => mapD Shape.Square (struct_variant (fun n => squareVisitMap n none)))

/-- `<Shape as Deserialize>::deserialize`. -/
def shapeDeserialize : DM Shape :=
  deserialize_enum "Shape" ["Circle", "Square"] shapeFieldOfStr shapeVisitEnum

/-- Top-level decode of a `Shape` from a value. -/
def decodeShape (scope : Scope) (v : Value) : DecodeResult Shape :=
  decode_value shapeDeserialize scope v

/-- The target union `Color = Red | Green | Blue`. -/
inductive Color : Type where
  | Red : Color
  | Green : Color
  | Blue : Color

/-- The derive's variant-identifier type for `Color`. -/
inductive ColorField : Type where
  | red : ColorField
  | green : ColorField
  | blue : ColorField

/-- Derive variant matcher for `Color`. -/
def colorFieldOfStr (s : String) : Except ExecError ColorField :=
  if s = "Red" then .ok .red
  else if s = "Green" then .ok .green
  else if s = "Blue" then .ok .blue
  else .error (.panicErr ("unknown variant `" ++ s ++ "`, expected one of `Red`, `Green`, `Blue`"))

/-- Derive visitor `visit_enum` for `Color`: every variant is a unit
variant, so the payload access is `unit_variant`. -/
def colorVisitEnum (vseed : DM ColorField) : DM Color :=
  bindD vseed (fun f =>
    match f with
    | .red => bindD unit_variant (fun _ => pureD Color.Red)
    | .green => bindD unit_variant (fun _ => pureD Color.Green)
    | .blue => bindD unit_variant (fun _ => pureD Color.Blue))

/-- `<Color as Deserialize>::deserialize`. -/
def colorDeserialize : DM Color :=
  deserialize_enum "Color" ["Red", "Green", "Blue"] colorFieldOfStr colorVisitEnum

/-- Top-level decode of a `Color` from a value. -/
def decodeColor (scope : Scope) (v : Value) : DecodeResult Color :=
  decode_value colorDeserialize scope v

/-- A union with one positional (tuple) variant, `Pair = P(i32, i32)`,
to exercise the `tuple_variant` payload path. -/
inductive Pair : Type where
  | P (a b : Int) : Pair

/-- The derive's variant-identifier type for `Pair`. -/
inductive PairField : Type where
  | p : PairField

/-- Derive variant matcher for `Pair`. -/
def pairFieldOfStr (s : String) : Except ExecError PairField :=
  if s = "P" then .ok .p
  else .error (.panicErr ("unknown variant `" ++ s ++ "`, expected `P`"))

/-- Derive visitor `visit_seq` for the payload of `Pair::P(i32, i32)`. -/
def pairVisitSeq (n : Nat) : DM Pair :=
  bindD (next_element n deserialize_i32) (fun p0 =>
    match p0.1 with
    | none => errD (.panicErr "invalid length 0, expected tuple variant Pair::P with 2 elements")
    | some a =>
      bindD (next_element p0.2 deserialize_i32) (fun p1 =>
        match p1.1 with
        | none => errD (.panicErr "invalid length 1, expected tuple variant Pair::P with 2 elements")
        | some b => pureD (Pair.P a b)))

/-- Derive visitor `visit_enum` for `Pair`: the single variant carries a
positional payload of declared arity 2. -/
def pairVisitEnum (vseed : DM PairField) : DM Pair :=
  bindD vseed (fun f =>
    match f with
    | .p => tuple_variant 2 pairVisitSeq)

/-- `<Pair as Deserialize>::deserialize`. -/
def pairDeserialize : DM Pair :=
  deserialize_enum "Pair" ["P"] pairFieldOfStr pairVisitEnum

/-! ## A concrete symbol table for the scenarios -/

/-- Interned id of `Point`. -/
def pointId : Nat := 0

/-- Interned id of `Wrong`. -/
def wrongId : Nat := 1

/-- Interned id of `Circle`. -/
def circleId : Nat := 2

/-- Interned id of `Square`. -/
def squareId : Nat := 3

/-- Interned id of `side`. -/
def sideId : Nat := 4

/-- Interned id of `Red`. -/
def redId : Nat := 5

/-- Interned id of `P`. -/
def pId : Nat := 6

/-- A concrete symbol table interning the names the scenarios use. -/
def testScope : Scope := fun n =>
  if n = 0 then "Point"
  else if n = 1 then "Wrong"
  else if n = 2 then "Circle"
  else if n = 3 then "Square"
  else if n = 4 then "side"
  else if n = 5 then "Red"
  else if n = 6 then "P"
  else ""

/-! ## Claim theorems -/

/-- C1 (counterexample): the claim's flat encoding is rejected —
decoding the flat list `(Point 3 4)` into the two-field `i32` tuple
struct registered as `"Point"` does not succeed; it fails with a type
mismatch because, after the name, the decoder demands a nested list of
the fields. -/
theorem tuple_struct_flat_list_rejected :
    (decodePoint testScope (.List [.Name pointId, .Integer 3, .Integer 4])).isOk = false ∧
    (decodePoint testScope (.List [.Name pointId, .Integer 3, .Integer 4])).errValue =
      some (.expected "list" (.Integer 3)) :=
  ⟨rfl, rfl⟩

/-- C1 (amended): a positional ("tuple") record is encoded as the name
token followed by a single nested list of the field values: decoding
`(Point (3 4))` yields `(3, 4)`; `(Wrong (3 4))` fails with the name
mismatch `expected struct Point; found Wrong`; `(Point (3))` fails with
serde's invalid-length error for the missing second field. -/
theorem tuple_struct_nested_field_list :
    (decodePoint testScope (.List [.Name pointId, .List [.Integer 3, .Integer 4]])).okValue =
      some (3, 4) ∧
    (decodePoint testScope (.List [.Name wrongId, .List [.Integer 3, .Integer 4]])).errValue =
      some (.panicErr "expected struct `Point`; found `Wrong`") ∧
    (decodePoint testScope (.List [.Name pointId, .List [.Integer 3]])).errValue =
      some (.panicErr "invalid length 1, expected tuple struct Point with 2 elements") :=
  ⟨rfl, rfl, rfl⟩

/-- C2: decoding `(Circle 2.5)` into `Shape` returns `Circle(2.5)` with
a balanced stack, but decoding `(Square (:side 4.0))` — although the
deserializer itself produces `Square {side: 4.0}` — leaves the outer
variant list frame on the stack, so the top-level entry point's
end-of-decode empty-stack assertion fires (a fatal panic, not an `Ok`):
the code violates its own `finish` assertion on this well-formed
input. -/
theorem square_variant_trips_empty_stack_assertion :
    (decodeShape testScope (.List [.Name circleId, .Float (5 / 2)])).okValue =
      some (.Circle (5 / 2)) ∧
    (shapeDeserialize ⟨testScope, [.Value (.List [.Name squareId,
        .List [.Keyword sideId, .Float 4]])]⟩).okValue = some (.Square 4) ∧
    decodeShape testScope (.List [.Name squareId, .List [.Keyword sideId, .Float 4]]) =
      .fatal "decode state is not empty" :=
  ⟨rfl, rfl, rfl⟩

/-- C3: for a named-field variant payload only the inner nested
field-list frame is closed — after `Square {side: 4.0}` is decoded the
outer per-variant list frame (exhausted) is still on the cursor stack —
while the newtype payload (`Circle`) and the positional payload
(`Pair::P`) close the outer frame, leaving the stack empty. -/
theorem variant_payload_frame_balance :
    (shapeDeserialize ⟨testScope, [.Value (.List [.Name squareId,
        .List [.Keyword sideId, .Float 4]])]⟩).finalStack = some [.Seq []] ∧
    (shapeDeserialize ⟨testScope, [.Value (.List [.Name squareId,
        .List [.Keyword sideId, .Float 4]])]⟩).okValue = some (.Square 4) ∧
    (shapeDeserialize ⟨testScope, [.Value (.List [.Name circleId,
        .Float (5 / 2)])]⟩).finalStack = some [] ∧
    (shapeDeserialize ⟨testScope, [.Value (.List [.Name circleId,
        .Float (5 / 2)])]⟩).okValue = some (.Circle (5 / 2)) ∧
    (pairDeserialize ⟨testScope, [.Value (.List [.Name pId,
        .Integer 3, .Integer 4])]⟩).finalStack = some [] ∧
    (pairDeserialize ⟨testScope, [.Value (.List [.Name pId,
        .Integer 3, .Integer 4])]⟩).okValue = some (.P 3 4) :=
  ⟨rfl, rfl, rfl, rfl, rfl, rfl⟩

/-- C4 (counterexample): a fully dynamic decode does not return the
claimed error value to the caller — at a concrete state it is a fatal
`not implemented` panic, not a returned `Err`. -/
theorem deserialize_any_not_an_err :
    deserialize_any (α := Unit) ⟨testScope, [.Value .Unit]⟩ = .fatal "not implemented" ∧
    (deserialize_any (α := Unit) ⟨testScope, [.Value .Unit]⟩).isErr = false :=
  ⟨rfl, rfl⟩

/-- C4 (amended): a decode whose target requests the fully open-ended
dynamic shape always fails by panicking `not implemented` — a fatal
condition, never a success and never a returned error value. -/
theorem deserialize_any_always_fatal :
    ∀ (α : Type) (s : VDeserializer),
      deserialize_any (α := α) s = .fatal "not implemented" ∧
      (deserialize_any (α := α) s).isErr = false ∧
      (deserialize_any (α := α) s).isOk = false :=
  fun _ _ => ⟨rfl, rfl, rfl⟩

/-- C10: calling `next_value` while the top frame is an exhausted
iteration frame returns the end-of-sequence error and pops that frame —
the resulting stack is the remainder, which differs from the input
stack, so the failing read is not atomic with respect to the traversal
state. -/
theorem next_value_pops_exhausted_frame :
    ∀ (scope : Scope) (rest : List DeserializeState),
      next_value ⟨scope, .Seq [] :: rest⟩ =
        .err (.panicErr "unexpected end of sequence") ⟨scope, rest⟩ ∧
      DeserializeState.Seq [] :: rest ≠ rest :=
  fun _ rest => ⟨rfl, List.cons_ne_self _ rest⟩

/-- C9: when a tagged-union decode peeks a non-list value it is treated
as a bare name symbol naming a zero-argument variant: exactly the one
pending value frame is consumed and the rest of the stack is untouched
(no sequence frame is opened or closed), and the top-level decode of the
bare symbol `Red` into `Color = Red | Green | Blue` yields `Red` with an
empty final stack. -/
theorem bare_symbol_unit_variant :
    (∀ rest : List DeserializeState,
      colorDeserialize ⟨testScope, .Value (.Name redId) :: rest⟩ =
        .ok Color.Red ⟨testScope, rest⟩) ∧
    decodeColor testScope (.Name redId) = .ok Color.Red ⟨testScope, []⟩ :=
  ⟨fun _ => rfl, rfl⟩

/-- C5 (amended): the owned-string decode (`deserialize_string`)
accepts exactly a string value (returned as-is) or a keyword symbol
(resolved to text via the symbol table) and fails on any other tag with
a type mismatch reporting `keyword or string`; the borrowed-string
decode (`deserialize_str`) hands the value to a symbol-table-free
conversion, so it accepts only a string value and rejects a keyword. -/
theorem string_decodes_by_method :
    (∀ (scope : Scope) (str : String) (rest : List DeserializeState),
      deserialize_string ⟨scope, .Value (.String str) :: rest⟩ = .ok str ⟨scope, rest⟩) ∧
    (∀ (scope : Scope) (k : Nat) (rest : List DeserializeState),
      deserialize_string ⟨scope, .Value (.Keyword k) :: rest⟩ = .ok (scope k) ⟨scope, rest⟩) ∧
    (∀ (scope : Scope) (v : Value) (rest : List DeserializeState),
      (∀ str, v ≠ .String str) → (∀ k, v ≠ .Keyword k) →
      deserialize_string ⟨scope, .Value v :: rest⟩ =
        .err (.expected "keyword or string" v) ⟨scope, rest⟩) ∧
    (∀ (scope : Scope) (str : String) (rest : List DeserializeState),
      deserialize_str ⟨scope, .Value (.String str) :: rest⟩ = .ok str ⟨scope, rest⟩) ∧
    (∀ (scope : Scope) (k : Nat) (rest : List DeserializeState),
      deserialize_str ⟨scope, .Value (.Keyword k) :: rest⟩ =
        .err (.expected "string" (.Keyword k)) ⟨scope, rest⟩) := by
  refine ⟨fun _ _ _ => rfl, fun _ _ _ => rfl, ?_, fun _ _ _ => rfl, fun _ _ _ => rfl⟩
  intro scope v rest h1 h2
  cases v with
  | String str => exact absurd rfl (h1 str)
  | Keyword k => exact absurd rfl (h2 k)
  | Unit => rfl
  | Bool _ => rfl
  | Char _ => rfl
  | Integer _ => rfl
  | Float _ => rfl
  | Name _ => rfl
  | List _ => rfl

/-- Witness for C5's amended theorem: a boolean is neither a string nor
a keyword, and `deserialize_string` rejects it with the `keyword or
string` type mismatch. -/
theorem string_decodes_witness :
    deserialize_string ⟨testScope, [.Value (.Bool true)]⟩ =
      .err (.expected "keyword or string" (.Bool true)) ⟨testScope, []⟩ :=
  string_decodes_by_method.2.2.1 testScope (.Bool true) []
    (fun _ h => Value.noConfusion h) (fun _ h => Value.noConfusion h)

/-- C5 (counterexample): not every string-shaped decode accepts a
keyword — `deserialize_str` fails on a keyword symbol instead of
resolving it to text. -/
theorem deserialize_str_rejects_keyword :
    (deserialize_str ⟨testScope, [.Value (.Keyword sideId)]⟩).isOk = false ∧
    (deserialize_str ⟨testScope, [.Value (.Keyword sideId)]⟩).errValue =
      some (.expected "string" (.Keyword sideId)) :=
  ⟨rfl, rfl⟩

/-- C6: an odd-length named-field list fails with the odd-keyword
parameters error — at the shared `enter_fields` primitive, through
`deserialize_struct` (for any registered name and independently of the
declared field list, which the code ignores), and through the
named-field variant payload's `struct_variant` — while an even-length
list reports half the element count to the visitor. -/
theorem enter_fields_parity :
    (∀ (scope : Scope) (l : List Value) (rest : List DeserializeState),
      l.length % 2 = 1 →
      enter_fields ⟨scope, .Value (.List l) :: rest⟩ =
        .err .oddKeywordParams ⟨scope, .Seq l :: rest⟩) ∧
    (∀ (scope : Scope) (l : List Value) (rest : List DeserializeState),
      l.length % 2 = 0 →
      enter_fields ⟨scope, .Value (.List l) :: rest⟩ =
        .ok (l.length / 2) ⟨scope, .Seq l :: rest⟩) ∧
    (∀ (α : Type) (name : String) (fields fields' : List String) (vm : Nat → DM α),
      deserialize_struct name fields vm = deserialize_struct name fields' vm) ∧
    (∀ (α : Type) (scope : Scope) (nm : Nat) (name2 : String) (fields : List String)
        (vm : Nat → DM α) (l : List Value) (rest : List DeserializeState),
      scope nm = name2 → l.length % 2 = 1 →
      deserialize_struct name2 fields vm
          ⟨scope, .Value (.List [.Name nm, .List l]) :: rest⟩ =
        .err .oddKeywordParams ⟨scope, .Seq l :: .Seq [] :: rest⟩) ∧
    (∀ (α : Type) (scope : Scope) (vm : Nat → DM α) (l tail : List Value)
        (rest : List DeserializeState),
      l.length % 2 = 1 →
      struct_variant vm ⟨scope, .Seq (.List l :: tail) :: rest⟩ =
        .err .oddKeywordParams ⟨scope, .Seq l :: .Seq tail :: rest⟩) := by
  refine ⟨?_, ?_, fun _ _ _ _ _ => rfl, ?_, ?_⟩
  · intro scope l rest h
    simp [enter_fields, bindD, enter_seq, next_value, listFromValueRef, errD, pureD, h]
  · intro scope l rest h
    simp [enter_fields, bindD, enter_seq, next_value, listFromValueRef, errD, pureD, h]
  · intro α scope nm name2 fields vm l rest hname h
    simp [deserialize_struct, enter_struct, begin_struct, bindD, enter_seq, next_value,
      listFromValueRef, read_name, with_name, pureD, errD, enter_fields, hname, h]
  · intro α scope vm l tail rest h
    simp [struct_variant, bindD, enter_fields, enter_seq, next_value, listFromValueRef,
      errD, pureD, h]

/-- Witness for C6: a one-element field list fails with the
odd-keyword-parameters error and a two-element field list reports one
field to the visitor. -/
theorem enter_fields_parity_witness :
    enter_fields ⟨testScope, [.Value (.List [.Keyword sideId])]⟩ =
      .err .oddKeywordParams ⟨testScope, [.Seq [.Keyword sideId]]⟩ ∧
    enter_fields ⟨testScope, [.Value (.List [.Keyword sideId, .Float 4])]⟩ =
      .ok 1 ⟨testScope, [.Seq [.Keyword sideId, .Float 4]]⟩ :=
  ⟨enter_fields_parity.1 testScope [.Keyword sideId] [] rfl,
   enter_fields_parity.2.1 testScope [.Keyword sideId, .Float 4] [] rfl⟩

/-- C7 (amended): for composite records the leading name token is
validated against the target's registered name before any field is read
— whatever the remaining elements are, a mismatch fails with
`expected struct X; found Y` with the cursor positioned just past the
name.  For a data-bearing variant the leading name is matched against
the declared variant names (not the union's registered name): an
unrecognized name fails with serde's unknown-variant error before any
payload is decoded, again independent of the remaining elements. -/
theorem leading_name_checks :
    (∀ (scope : Scope) (name2 : String) (nm : Nat) (tail : List Value)
        (stack : List DeserializeState),
      scope nm ≠ name2 →
      begin_struct name2 ⟨scope, .Value (.List (.Name nm :: tail)) :: stack⟩ =
        .err (.panicErr ("expected struct `" ++ name2 ++ "`; found `" ++ scope nm ++ "`"))
          ⟨scope, .Seq tail :: stack⟩) ∧
    (∀ (scope : Scope) (nm : Nat) (tail : List Value) (stack : List DeserializeState),
      scope nm ≠ "Circle" → scope nm ≠ "Square" →
      shapeDeserialize ⟨scope, .Value (.List (.Name nm :: tail)) :: stack⟩ =
        .err (.panicErr ("unknown variant `" ++ scope nm ++ "`, expected `Circle` or `Square`"))
          ⟨scope, .Seq tail :: stack⟩) := by
  constructor
  · intro scope name2 nm tail stack h
    simp [begin_struct, bindD, enter_seq, next_value, listFromValueRef, read_name,
      with_name, pureD, errD, h]
  · intro scope nm tail stack h1 h2
    simp [shapeDeserialize, deserialize_enum, peek_value, shapeVisitEnum,
      variant_seed_list, bindD, enter_seq, next_value, listFromValueRef, read_name,
      with_name, pureD, errD, ofExcept, shapeFieldOfStr, h1, h2]

/-- Witness for C7's amended theorem: `Wrong` mismatches the record name
`Point` and names no `Shape` variant; both decodes fail on the name with
their respective errors, before touching the remaining elements. -/
theorem leading_name_checks_witness :
    begin_struct "Point" ⟨testScope, [.Value (.List [.Name wrongId, .Integer 3])]⟩ =
      .err (.panicErr "expected struct `Point`; found `Wrong`")
        ⟨testScope, [.Seq [.Integer 3]]⟩ ∧
    shapeDeserialize ⟨testScope, [.Value (.List [.Name wrongId, .Float 4])]⟩ =
      .err (.panicErr "unknown variant `Wrong`, expected `Circle` or `Square`")
        ⟨testScope, [.Seq [.Float 4]]⟩ :=
  ⟨leading_name_checks.1 testScope "Point" wrongId [.Integer 3] [] (by decide),
   leading_name_checks.2 testScope wrongId [.Float 4] [] (by decide) (by decide)⟩

/-- C7 (counterexample): for a data-bearing variant the leading name is
never compared with the union's registered name — `(Circle 2.5)` decodes
into `Shape` successfully even though `Circle` differs from the
registered name `Shape`. -/
theorem variant_name_not_checked_against_enum_name :
    (decodeShape testScope (.List [.Name circleId, .Float (5 / 2)])).isOk = true ∧
    testScope circleId ≠ "Shape" :=
  ⟨rfl, by decide⟩

/-- C8: an option-shaped decode peeks the current value; the unit tag is
consumed (from either a single-value frame or an iteration frame) and
yields `none`, while any other tag yields `some` of decoding the very
same value — the wrapped decode runs on the unchanged state, so the
value is not consumed before dispatch. -/
theorem option_unit_none_otherwise_some :
    (∀ (α : Type) (d : DM α) (scope : Scope) (rest : List DeserializeState),
      deserialize_option d ⟨scope, .Value .Unit :: rest⟩ = .ok none ⟨scope, rest⟩) ∧
    (∀ (α : Type) (d : DM α) (scope : Scope) (xs : List Value)
        (rest : List DeserializeState),
      deserialize_option d ⟨scope, .Seq (Value.Unit :: xs) :: rest⟩ =
        .ok none ⟨scope, .Seq xs :: rest⟩) ∧
    (∀ (α : Type) (d : DM α) (scope : Scope) (v : Value) (rest : List DeserializeState),
      v ≠ .Unit →
      deserialize_option d ⟨scope, .Value v :: rest⟩ =
        mapD Option.some d ⟨scope, .Value v :: rest⟩) ∧
    (∀ (α : Type) (d : DM α) (scope : Scope) (v : Value) (xs : List Value)
        (rest : List DeserializeState),
      v ≠ .Unit →
      deserialize_option d ⟨scope, .Seq (v :: xs) :: rest⟩ =
        mapD Option.some d ⟨scope, .Seq (v :: xs) :: rest⟩) := by
  refine ⟨fun _ _ _ _ => rfl, fun _ _ _ _ _ => rfl, ?_, ?_⟩
  · intro α d scope v rest h
    cases v with
    | Unit => exact absurd rfl h
    | Bool _ => rfl
    | Char _ => rfl
    | Integer _ => rfl
    | Float _ => rfl
    | String _ => rfl
    | Keyword _ => rfl
    | Name _ => rfl
    | List _ => rfl
  · intro α d scope v xs rest h
    cases v with
    | Unit => exact absurd rfl h
    | Bool _ => rfl
    | Char _ => rfl
    | Integer _ => rfl
    | Float _ => rfl
    | String _ => rfl
    | Keyword _ => rfl
    | Name _ => rfl
    | List _ => rfl

/-- Witness for C8: an integer is not the unit tag, so the option decode
dispatches to the wrapped `i32` decode on the same value and yields
`some 3`. -/
theorem option_decode_witness :
    deserialize_option deserialize_i32 ⟨testScope, [.Value (.Integer 3)]⟩ =
      .ok (some 3) ⟨testScope, []⟩ :=
  (option_unit_none_otherwise_some.2.2.1 Int deserialize_i32 testScope (.Integer 3) []
    (fun h => Value.noConfusion h)).trans rfl

end Ketos




